import Mathlib

/-!
Shallow embedding of the AetherGuard activity-integrity and scoring engine.

Sources embedded here:
* src/utils/securityLogger.js  — flag ledger and progressive penalty multiplier
* src/modules/activityTracker.js — quality filter, reaction guard, voice credit,
  event queue and batch aggregation
* src/config.js (database section) — getDailyActivity, getNftMultiplier,
  batchUpdateActivity

JavaScript numbers are modelled as rationals (ℚ); integer counters as ℕ/ℤ
where the code only ever holds integers.  JS Math.round x is ⌊x + 1/2⌋ for
every finite x, and Math.floor on a non-negative integer half is Nat
division.  Map entries keyed by one (community, actor) pair are modelled as
the state of the single entry, since the code never mixes entries of
keys.
-/

/-- JS Math.round: round half toward positive infinity, ⌊q + 1/2⌋
(written through Rat.floor so that the kernel can evaluate it). -/
def jsRound (q : ℚ) : ℤ := (q + 1/2).floor

/-- Rounding to 2 decimal places as the source writes it:
Math.round(x * 100) / 100. -/
def round2 (q : ℚ) : ℚ := ((jsRound (q * 100) : ℤ) : ℚ) / 100

/-! ## Progressive penalty ledger (src/utils/securityLogger.js)

The tracker of a user holds a `flags` array of reason strings.  `flagUser`
pushes the reason only when `tracker.flags.includes(reason)` is false.
`getPenaltyMultiplier` maps the flag count through the thresholds
WARNING = 1, REDUCED = 2, BLOCKED = 3. -/

/-- Effect of securityLogger.flagUser on the flag list of one tracker. -/
def flagUser (flags : List String) (reason : String) : List String :=
  if reason ∈ flags then flags else flags ++ [reason]

/-- securityLogger.getPenaltyMultiplier: 3+ flags → 0, 2 flags → 0.5,
otherwise 1.0. -/
def getPenaltyMultiplier (flags : List String) : ℚ :=
  if 3 ≤ flags.length then 0
  else if 2 ≤ flags.length then 1/2
  else 1

/-- securityLogger.isUserBlocked: multiplier equals zero. -/
def isUserBlocked (flags : List String) : Bool :=
  getPenaltyMultiplier flags == 0

/-- The gate installed in the messageCreate handler (src/index.js):
blocked users are skipped before the activity tracker ever sees the
message.  The same gate guards messageReactionAdd; no such gate exists on
voiceStateUpdate. -/
def messageGateAdmits (flags : List String) : Bool :=
  !(isUserBlocked flags)

/-! ## Voice credit (src/modules/activityTracker.js, calcEffectiveVoiceMinutes) -/

/-- calcEffectiveVoiceMinutes: both muted and deafened → 0, exactly one →
floor(raw * 0.5), neither → raw; finally capped at 240 minutes per
checkpoint cycle. -/
def calcEffectiveVoiceMinutes (rawMinutes : ℕ) (muted deafened : Bool) : ℕ :=
  let effective :=
    if deafened && muted then 0
    else if deafened || muted then rawMinutes / 2
    else rawMinutes
  min effective 240

/-! ## Community settings and counters rows (src/config.js, database section)

activity_settings columns that the scoring path reads.  Numeric columns
can be NULL in principle, and batchUpdateActivity guards every read with
the nullish operator, so they are modelled as Option ℚ.  The nft tier
count columns are read bare (a NULL would behave as 0 under JS
comparison, which the NOT-NULL-by-default schema makes unreachable), so
they are plain ℚ. -/

structure ActivitySettings where
  enabled : Bool
  message_score : Option ℚ
  reply_score : Option ℚ
  reaction_score : Option ℚ
  voice_score : Option ℚ
  daily_message_cap : Option ℚ
  daily_reply_cap : Option ℚ
  daily_reaction_cap : Option ℚ
  daily_voice_cap : Option ℚ
  nft_bonus_enabled : Bool
  nft_tier1_count : ℚ
  nft_tier1_multiplier : Option ℚ
  nft_tier2_count : ℚ
  nft_tier2_multiplier : Option ℚ
  nft_tier3_count : ℚ
  nft_tier3_multiplier : Option ℚ
  deriving DecidableEq

/-- One activity_tracking row.  Dates (YYYY-MM-DD strings in the store)
are modelled as day numbers. -/
structure ActivityRow where
  message_count : ℚ
  reply_count : ℚ
  reaction_count : ℚ
  voice_minutes : ℚ
  total_score : ℚ
  week_score : ℚ
  daily_messages : ℚ
  daily_replies : ℚ
  daily_reactions : ℚ
  daily_voice : ℚ
  daily_reset_date : ℕ
  deriving DecidableEq

/-- One per-actor aggregate handed to batchUpdateActivity. -/
structure ActivityUpdate where
  message_count : ℚ
  reply_count : ℚ
  reaction_count : ℚ
  voice_minutes : ℚ
  deriving DecidableEq

/-- The four daily sub-counters that getDailyActivity returns. -/
structure DailyData where
  daily_messages : ℚ
  daily_replies : ℚ
  daily_reactions : ℚ
  daily_voice : ℚ
  deriving DecidableEq

/-- JS nullish coalescing `settings?.field ?? default` for a possibly
missing settings record. -/
def settingField (s? : Option ActivitySettings) (f : ActivitySettings → Option ℚ)
    (d : ℚ) : ℚ :=
  ((s?.bind f).getD d)

/-- JS `x || d` on a numeric column: null and 0 both fall back. -/
def jsOrDefault (x : Option ℚ) (d : ℚ) : ℚ :=
  match x with
  | none => d
  | some v => if v = 0 then d else v

/-- getNftMultiplier (src/config.js): tiers checked from high to low
against the nft_balance of the verified user; a missing verified_users row or
disabled bonus yields 1.0.  `verified` is the nft_balance of the
verified_users row of the actor, if any. -/
def getNftMultiplier (s : ActivitySettings) (verified : Option ℚ) : ℚ :=
  if !s.nft_bonus_enabled then 1
  else
    match verified with
    | none => 1
    | some nftBalance =>
      if s.nft_tier3_count ≤ nftBalance then jsOrDefault s.nft_tier3_multiplier (3/2)
      else if s.nft_tier2_count ≤ nftBalance then jsOrDefault s.nft_tier2_multiplier (6/5)
      else if s.nft_tier1_count ≤ nftBalance then jsOrDefault s.nft_tier1_multiplier 1
      else 1

/-- In batchUpdateActivity the multiplier is only looked up when a
settings record exists: `settings ? await getNftMultiplier(...) : 1.0`. -/
def nftMultiplierOf (s? : Option ActivitySettings) (verified : Option ℚ) : ℚ :=
  match s? with
  | some s => getNftMultiplier s verified
  | none => 1

/-- getDailyActivity (src/config.js): read the row of the actor; a missing row
yields zeroed counters dated today (no write); a stale daily_reset_date
zeroes the daily counters in the store and yields zeroed counters.
Returns the daily data used for clamping together with the row as it now
stands in the store. -/
def getDailyActivity (today : ℕ) (row? : Option ActivityRow) :
    DailyData × Option ActivityRow :=
  match row? with
  | none => (⟨0, 0, 0, 0⟩, none)
  | some row =>
    if row.daily_reset_date ≠ today then
      (⟨0, 0, 0, 0⟩,
        some { row with
                daily_messages := 0, daily_replies := 0,
                daily_reactions := 0, daily_voice := 0,
                daily_reset_date := today })
    else
      (⟨row.daily_messages, row.daily_replies, row.daily_reactions,
        row.daily_voice⟩, some row)

/-- The per-kind clamp of batchUpdateActivity:
effective = min(count, max(0, dailyCap − dailyUsed)). -/
def effectiveCounts (s? : Option ActivitySettings) (d : DailyData)
    (u : ActivityUpdate) : ActivityUpdate where
  message_count :=
    min u.message_count (max 0 (settingField s? (·.daily_message_cap) 100 - d.daily_messages))
  reply_count :=
    min u.reply_count (max 0 (settingField s? (·.daily_reply_cap) 50 - d.daily_replies))
  reaction_count :=
    min u.reaction_count (max 0 (settingField s? (·.daily_reaction_cap) 50 - d.daily_reactions))
  voice_minutes :=
    min u.voice_minutes (max 0 (settingField s? (·.daily_voice_cap) 120 - d.daily_voice))

/-- The baseScore of batchUpdateActivity: Σ effective kind count × kind weight,
weights defaulting to 1 / 2 / 0.5 / 0.1. -/
def baseScoreOf (s? : Option ActivitySettings) (eff : ActivityUpdate) : ℚ :=
  eff.message_count * settingField s? (·.message_score) 1 +
  eff.reply_count * settingField s? (·.reply_score) 2 +
  eff.reaction_count * settingField s? (·.reaction_score) (1/2) +
  eff.voice_minutes * settingField s? (·.voice_score) (1/10)

/-- One iteration of the batchUpdateActivity update loop for a single actor
aggregate: roll over the daily counters, clamp each kind against its daily
cap, skip entirely when every clamped count is zero, otherwise upsert the
row, adding round2(baseScore × nftMultiplier) to the total and weekly
scores.  The upsert CASE compares the stored daily_reset_date with
today, exactly as the SQL does. -/
def applyActivityUpdate (today : ℕ) (s? : Option ActivitySettings)
    (verified : Option ℚ) (row? : Option ActivityRow) (u : ActivityUpdate) :
    Option ActivityRow :=
  let rolled := getDailyActivity today row?
  let d := rolled.1
  let row? := rolled.2
  let eff := effectiveCounts s? d u
  if eff.message_count = 0 ∧ eff.reply_count = 0 ∧
      eff.reaction_count = 0 ∧ eff.voice_minutes = 0 then
    row?
  else
    let totalScore := round2 (baseScoreOf s? eff * nftMultiplierOf s? verified)
    match row? with
    | none =>
      some { message_count := eff.message_count
             reply_count := eff.reply_count
             reaction_count := eff.reaction_count
             voice_minutes := eff.voice_minutes
             total_score := totalScore
             week_score := totalScore
             daily_messages := eff.message_count
             daily_replies := eff.reply_count
             daily_reactions := eff.reaction_count
             daily_voice := eff.voice_minutes
             daily_reset_date := today }
    | some row =>
      some { message_count := row.message_count + eff.message_count
             reply_count := row.reply_count + eff.reply_count
             reaction_count := row.reaction_count + eff.reaction_count
             voice_minutes := row.voice_minutes + eff.voice_minutes
             total_score := row.total_score + totalScore
             week_score := row.week_score + totalScore
             daily_messages :=
               if row.daily_reset_date = today
               then row.daily_messages + eff.message_count else eff.message_count
             daily_replies :=
               if row.daily_reset_date = today
               then row.daily_replies + eff.reply_count else eff.reply_count
             daily_reactions :=
               if row.daily_reset_date = today
               then row.daily_reactions + eff.reaction_count else eff.reaction_count
             daily_voice :=
               if row.daily_reset_date = today
               then row.daily_voice + eff.voice_minutes else eff.voice_minutes
             daily_reset_date := today }

/-- batchUpdateActivity (src/config.js): fold the update loop over the
aggregates of one community; `store` maps a user id to their
activity_tracking row, `verified` to their verified_users nft_balance. -/
def batchUpdateActivity (today : ℕ) (s? : Option ActivitySettings)
    (verified : String → Option ℚ) (store : String → Option ActivityRow)
    (updates : List (String × ActivityUpdate)) : String → Option ActivityRow :=
  updates.foldl
    (fun st p =>
      Function.update st p.1
        (applyActivityUpdate today s? (verified p.1) (st p.1) p.2))
    store

/-- The total_score of an optional row, 0 when the row is absent. -/
def totalScoreOf (row? : Option ActivityRow) : ℚ :=
  (row?.map (·.total_score)).getD 0

/-! ## Quality filter (src/modules/activityTracker.js) -/

/-- One inner step of the Levenshtein DP: given the diagonal cell
dp[i-1][j-1], the rest of the previous row dp[i-1][j..], the cell to the
left dp[i][j-1] and the remaining characters of b, produce dp[i][j..]. -/
def levRowAux (ai : Char) : ℤ → List ℤ → ℤ → List Char → List ℤ
  | _, _, _, [] => []
  | _, [], _, _ :: _ => []
  | diag, p :: prev, left, y :: ys =>
    let cur := if ai = y then diag else 1 + min p (min left diag)
    cur :: levRowAux ai p prev cur ys

/-- Row i of the DP table from row i-1 (dp[i][0] = i). -/
def levNextRow (ai : Char) (i : ℤ) (prev : List ℤ) (b : List Char) : List ℤ :=
  match prev with
  | [] => [i]
  | d :: rest => i :: levRowAux ai d rest i b

/-- Remaining rows of the DP table, consuming a; i is the index of the
row already built. -/
def levRows : List Char → ℤ → List ℤ → List Char → List ℤ
  | [], _, prev, _ => prev
  | ai :: as, i, prev, b => levRows as (i + 1) (levNextRow ai (i + 1) prev b) b

/-- levenshteinDistance (src/modules/activityTracker.js): the m×n dynamic
program with early returns for empty strings; cell (i,j) is dp[i-1][j-1]
when the characters match and 1 + min of the three neighbours otherwise.
The result is dp[m][n], the last entry of the last row. -/
def levenshteinDistance (a b : List Char) : ℤ :=
  if a.length = 0 then b.length
  else if b.length = 0 then a.length
  else ((levRows a 0 ((List.range (b.length + 1)).map (· : ℕ → ℤ)) b).getLastD 0)

/-- JS String.prototype.toLowerCase (ASCII-relevant part), written as a
structural map so the kernel can evaluate it. -/
def jsToLower (s : String) : String := String.mk (s.data.map Char.toLower)

/-- JS String.prototype.trim: strip whitespace from both ends. -/
def jsTrim (s : String) : String :=
  String.mk (((s.data.dropWhile Char.isWhitespace).reverse.dropWhile
    Char.isWhitespace).reverse)

/-- JS `text.split(/\s+/)` on an already-trimmed string: whitespace runs
separate tokens and produce no empty tokens. -/
def splitWsAux : List Char → List Char → List String
  | [], cur => if cur.isEmpty then [] else [String.mk cur.reverse]
  | c :: cs, cur =>
    if c.isWhitespace then
      if cur.isEmpty then splitWsAux cs []
      else String.mk cur.reverse :: splitWsAux cs []
    else splitWsAux cs (c :: cur)

def jsSplitWs (s : String) : List String := splitWsAux s.data []

/-- calculateSimilarity (src/modules/activityTracker.js): 0 for an empty
input; Levenshtein-based 1 − dist/maxLen on the lowercased trimmed
strings when either is shorter than 50 characters; token-set Jaccard
similarity otherwise. -/
def calculateSimilarity (str1 str2 : String) : ℚ :=
  if str1 = "" ∨ str2 = "" then 0
  else
    let s1 := jsTrim (jsToLower str1)
    let s2 := jsTrim (jsToLower str2)
    if s1.length < 50 ∨ s2.length < 50 then
      let maxLen := max s1.length s2.length
      if maxLen = 0 then 1
      else 1 - (levenshteinDistance s1.data s2.data : ℚ) / (maxLen : ℚ)
    else
      let words1 := (jsSplitWs s1).toFinset
      let words2 := (jsSplitWs s2).toFinset
      let inter := words1 ∩ words2
      let uni := words1 ∪ words2
      if 0 < uni.card then (inter.card : ℚ) / (uni.card : ℚ) else 0

/-- The duplicate check threshold SIMILARITY_THRESHOLD = 0.7. -/
def similarityThreshold : ℚ := 7/10

/-- isDuplicateMessage (src/modules/activityTracker.js): contents shorter
than 5 characters are never duplicates and are not recorded; otherwise the
content is compared against the per-actor history (last 10 recorded
messages, FIFO) and recorded only when no entry is ≥ the threshold.
Returns (isDuplicate, new history). -/
def isDuplicateMessage (content : String) (history : List String) :
    Bool × List String :=
  if content = "" ∨ content.length < 5 then (false, history)
  else if history.any (fun prev => similarityThreshold ≤ calculateSimilarity content prev) then
    (true, history)
  else
    let h := history ++ [content]
    (false, if 10 < h.length then h.tail else h)

/-! ### isGibberish (src/modules/activityTracker.js) -/

/-- Character ranges the source treats as CJK:
一-鿿, ぀-ゟ, ゠-ヿ, 가-힯. -/
def isCJKChar (c : Char) : Bool :=
  (0x4e00 ≤ c.toNat && c.toNat ≤ 0x9fff) ||
  (0x3040 ≤ c.toNat && c.toNat ≤ 0x309f) ||
  (0x30a0 ≤ c.toNat && c.toNat ≤ 0x30ff) ||
  (0xac00 ≤ c.toNat && c.toNat ≤ 0xd7af)

/-- JS regex line terminators, which `.` does not match. -/
def isLineTerm (c : Char) : Bool :=
  c = '\n' || c = '\r' || c.toNat = 0x2028 || c.toNat = 0x2029

/-- Scan for /(.)\1{6,}/: a run of at least 7 equal characters whose
character is not a line terminator (the `.` cannot match one). -/
def hasLongRunAux : List Char → Char → ℕ → Bool
  | [], _, _ => false
  | c :: cs, cur, n =>
    if c = cur then
      if 7 ≤ n + 1 && !(isLineTerm c) then true
      else hasLongRunAux cs cur (n + 1)
    else hasLongRunAux cs c 1

def hasLongRun : List Char → Bool
  | [] => false
  | c :: cs => hasLongRunAux cs c 1

/-- JS \w: [A-Za-z0-9_]. -/
def isWordChar (c : Char) : Bool := c.isAlphanum || c = '_'

/-- Matches /^<:\w+:\d+>/ (a custom emoji token). -/
def matchesCustomEmoji (text : List Char) : Bool :=
  match text with
  | '<' :: ':' :: rest =>
    let w := rest.takeWhile isWordChar
    let rest2 := rest.drop w.length
    if w.isEmpty then false
    else
      match rest2 with
      | ':' :: rest3 =>
        let d := rest3.takeWhile Char.isDigit
        let rest4 := rest3.drop d.length
        if d.isEmpty then false
        else
          match rest4 with
          | '>' :: _ => true
          | _ => false
      | _ => false
  | _ => false

/-- Matches /^(<[@#!&]|https?:\/\/|<:\w+:\d+>)/: URLs, mentions and custom
emoji are allowed short messages. -/
def startsAllowed (text : List Char) : Bool :=
  match text with
  | '<' :: '@' :: _ => true
  | '<' :: '#' :: _ => true
  | '<' :: '!' :: _ => true
  | '<' :: '&' :: _ => true
  | 'h' :: 't' :: 't' :: 'p' :: 's' :: ':' :: '/' :: '/' :: _ => true
  | 'h' :: 't' :: 't' :: 'p' :: ':' :: '/' :: '/' :: _ => true
  | _ => matchesCustomEmoji text

/-- A keyboard-mash word: after stripping non-letters and lowercasing, at
least 4 letters and no vowel. -/
def isMashWord (w : String) : Bool :=
  let clean := (w.data.filter Char.isAlpha).map Char.toLower
  if clean.length < 4 then false
  else !(clean.any (fun c => c = 'a' || c = 'e' || c = 'i' || c = 'o' || c = 'u'))

/-- Check 4 helper: the whole text is the pattern text.take patLen
repeated (ceil(len/patLen) copies, truncated to len). -/
def patternRepeats (text : List Char) (patLen : ℕ) : Bool :=
  let pat := text.take patLen
  text == (List.replicate (text.length / patLen + 1) pat).flatten.take text.length

/-- isGibberish (src/modules/activityTracker.js): four sequential checks
on the trimmed text after the allow-list early exit.  Inputs shorter than
5 characters are never gibberish.  Lean Char.isWhitespace covers the
whitespace forms the source texts contain. -/
def isGibberish (content : String) : Bool :=
  if content.length < 5 then false
  else
    let text := (jsTrim content).data
    if startsAllowed text then false
    else if hasLongRun text then true
    else if
      -- Check 2: ≥70% of words are 4+ letter vowel-free, skipped for CJK
      !(text.any isCJKChar) &&
      (let words := jsSplitWs (String.mk text)
       let mashCount := (words.filter isMashWord).length
       decide (0 < words.length) &&
       decide ((7 : ℚ)/10 < (mashCount : ℚ) / (words.length : ℚ)) &&
       decide (2 ≤ words.length)) then true
    else if
      -- Check 3: >60% special characters among non-space non-CJK chars
      (let alphaNum := text.filter (fun c => !(c.isWhitespace || isCJKChar c))
       let specialCount := (alphaNum.filter (fun c => !c.isAlphanum)).length
       decide (5 < alphaNum.length) &&
       decide ((6 : ℚ)/10 < (specialCount : ℚ) / (alphaNum.length : ℚ))) then true
    else if
      -- Check 4: short repeating pattern spanning the whole text
      decide (10 ≤ text.length) &&
      (patternRepeats text 1 || patternRepeats text 2 || patternRepeats text 3) then true
    else false

/-! ### shouldScoreMessage (src/modules/activityTracker.js) -/

/-- config.activity.minMessageLength. -/
def minMessageLength : ℕ := 3

/-- config.activity.cooldownMs. -/
def cooldownMs : ℤ := 10000

/-- The per-actor maps the quality filter consults for one actor:
recentMessages timestamp, spamTracker entry and message history. -/
structure MsgState where
  lastTime : Option ℤ
  spam : Option (ℕ × ℤ)
  history : List String
  deriving DecidableEq

/-- shouldScoreMessage: length, gibberish, duplicate, cooldown and burst
checks in source order.  The duplicate check records the content in the
history even when a later check rejects the message; recentMessages is
only set on acceptance.  `t ≠ 0` models JS truthiness of the stored
timestamp. -/
def shouldScoreMessage (now : ℤ) (content : String) (st : MsgState) :
    Bool × MsgState :=
  if content.length < minMessageLength then (false, st)
  else if isGibberish content then (false, st)
  else
    let dup := isDuplicateMessage content st.history
    let st1 : MsgState := { st with history := dup.2 }
    if dup.1 then (false, st1)
    else
      let cooldownHit :=
        match st1.lastTime with
        | some t => if t ≠ 0 ∧ now - t < cooldownMs then true else false
        | none => false
      if cooldownHit then (false, st1)
      else
        match st1.spam with
        | some (count, windowStart) =>
          if now - windowStart < 60000 then
            if 50 ≤ count then (false, st1)
            else (true, { st1 with spam := some (count + 1, windowStart),
                                   lastTime := some now })
          else (true, { st1 with spam := some (1, now), lastTime := some now })
        | none => (true, { st1 with spam := some (1, now), lastTime := some now })

/-! ## Reaction pattern guard (src/modules/activityTracker.js, handleReactionAdd) -/

/-- One reactionTracker entry for one (community, actor) key:
{ count, windowStart, uniqueMessages }. -/
structure ReactionData where
  count : ℕ
  windowStart : ℤ
  uniqueMessages : Finset String
  deriving DecidableEq

/-- REACTION_WINDOW_MS. -/
def reactionWindowMs : ℤ := 300000

/-- REACTION_MAX_PER_WINDOW. -/
def reactionMaxPerWindow : ℕ := 30

/-- The anti-farming core of handleReactionAdd, after the settings,
channel and bot gates: reactions on own messages return before any
tracking; an expired (or absent) window entry is replaced by a fresh one;
the count and target set always grow; over 30 in the window blocks
silently; more than 10 with a distinct-target share below
REACTION_UNIQUE_RATIO = 0.3 blocks and flags reaction_farming; otherwise
a reaction event is emitted.  Result: (tracker entry, event emitted,
reaction_farming flag raised). -/
def handleReactionAdd (now : ℤ) (messageId : String) (ownMessage : Bool)
    (rd? : Option ReactionData) : Option ReactionData × Bool × Bool :=
  if ownMessage then (rd?, false, false)
  else
    let fresh : ReactionData := ⟨0, now, ∅⟩
    let base :=
      match rd? with
      | none => fresh
      | some d => if reactionWindowMs < now - d.windowStart then fresh else d
    let rd : ReactionData :=
      { base with count := base.count + 1,
                  uniqueMessages := insert messageId base.uniqueMessages }
    if reactionMaxPerWindow < rd.count then (some rd, false, false)
    else if 10 < rd.count ∧
        (rd.uniqueMessages.card : ℚ) / (rd.count : ℚ) < 3/10 then
      (some rd, false, true)
    else (some rd, true, false)

/-- Folding a trace of admissible (non-own) reactions through the guard;
each element is (timestamp, target message id). -/
def runReactions (rd? : Option ReactionData) (evs : List (ℤ × String)) :
    Option ReactionData :=
  evs.foldl (fun st e => (handleReactionAdd e.1 e.2 false st).1) rd?

/-! ## Event queue and batch aggregation (src/modules/activityTracker.js) -/

inductive EventKind
  | message
  | reply
  | reaction
  | voice
  deriving DecidableEq

/-- One queued activity event, as built by trackActivity. -/
structure ActivityEvent where
  guildId : String
  userId : String
  kind : EventKind
  value : ℚ
  deriving DecidableEq

/-- The switch in processBatch that adds an event into its aggregate. -/
def bumpUpdate (u : ActivityUpdate) (k : EventKind) (v : ℚ) : ActivityUpdate :=
  match k with
  | .message => { u with message_count := u.message_count + v }
  | .reply => { u with reply_count := u.reply_count + v }
  | .reaction => { u with reaction_count := u.reaction_count + v }
  | .voice => { u with voice_minutes := u.voice_minutes + v }

/-- Add one event to the per-(guild, user) aggregate map, modelled as an
insertion-ordered association list. -/
def addEvent (acc : List ((String × String) × ActivityUpdate))
    (e : ActivityEvent) : List ((String × String) × ActivityUpdate) :=
  let key := (e.guildId, e.userId)
  if acc.any (fun p => p.1 = key) then
    acc.map (fun p => if p.1 = key then (p.1, bumpUpdate p.2 e.kind e.value) else p)
  else
    acc ++ [(key, bumpUpdate ⟨0, 0, 0, 0⟩ e.kind e.value)]

/-- processBatch step 2: group events by (guild, user) and sum magnitudes
per kind. -/
def aggregateEvents (events : List ActivityEvent) :
    List ((String × String) × ActivityUpdate) :=
  events.foldl addEvent []

/-- processBatch step 3: group the per-actor aggregates by guild. -/
def addToGuildGroups (acc : List (String × List (String × ActivityUpdate)))
    (p : (String × String) × ActivityUpdate) :
    List (String × List (String × ActivityUpdate)) :=
  if acc.any (fun g => g.1 = p.1.1) then
    acc.map (fun g => if g.1 = p.1.1 then (g.1, g.2 ++ [(p.1.2, p.2)]) else g)
  else
    acc ++ [(p.1.1, [(p.1.2, p.2)])]

def groupByGuild (l : List ((String × String) × ActivityUpdate)) :
    List (String × List (String × ActivityUpdate)) :=
  l.foldl addToGuildGroups []

/-- The guild-by-guild write loop inside the try block of processBatch.
`failing` says whether the store write for a guild throws; a throw aborts
the remaining guilds (the store keeps the guilds already written).
Returns the store and whether every write succeeded. -/
def writeGuilds (today : ℕ) (settingsOf : String → Option ActivitySettings)
    (verified : String → String → Option ℚ) (failing : String → Bool) :
    (String × String → Option ActivityRow) →
    List (String × List (String × ActivityUpdate)) →
    (String × String → Option ActivityRow) × Bool
  | store, [] => (store, true)
  | store, (g, ups) :: rest =>
    if failing g then (store, false)
    else
      let guildStore :=
        batchUpdateActivity today (settingsOf g) (verified g)
          (fun u => store (g, u)) ups
      writeGuilds today settingsOf verified failing
        (fun k => if k.1 = g then guildStore k.2 else store k) rest

/-- processBatch (src/modules/activityTracker.js): splice the queue, do
nothing when it was empty, otherwise aggregate, look the settings up once
per guild (settingsOf caches db.getActivitySettings, which may be none)
and write guild by guild; on any failure push every original event back
onto the queue.  Returns the store and the queue as left for the next
cycle. -/
def processBatch (today : ℕ) (settingsOf : String → Option ActivitySettings)
    (verified : String → String → Option ℚ) (failing : String → Bool)
    (store : String × String → Option ActivityRow)
    (queue : List ActivityEvent) :
    (String × String → Option ActivityRow) × List ActivityEvent :=
  if queue.isEmpty then (store, [])
  else
    let res := writeGuilds today settingsOf verified failing store
      (groupByGuild (aggregateEvents queue))
    if res.2 then (res.1, []) else (res.1, queue)

/-- getActivitySettingsIfEnabled (src/modules/activityTracker.js): the
event-intake gate.  none when tracking is globally disabled, when the
guild has no activity_settings row, or when that row is not enabled. -/
def getActivitySettingsIfEnabled (globalEnabled : Bool)
    (settings : Option ActivitySettings) : Option ActivitySettings :=
  if !globalEnabled then none
  else
    match settings with
    | none => none
    | some s => if !s.enabled then none else some s

/-- The C3 invariant: every stored row whose daily_reset_date is current
keeps each daily sub-counter within the configured cap of its kind. -/
def dailyCapsOK (s? : Option ActivitySettings) (today : ℕ)
    (row? : Option ActivityRow) : Prop :=
  ∀ r : ActivityRow, row? = some r → r.daily_reset_date = today →
    r.daily_messages ≤ settingField s? (·.daily_message_cap) 100 ∧
    r.daily_replies ≤ settingField s? (·.daily_reply_cap) 50 ∧
    r.daily_reactions ≤ settingField s? (·.daily_reaction_cap) 50 ∧
    r.daily_voice ≤ settingField s? (·.daily_voice_cap) 120

theorem getDailyActivity_same (today : ℕ) (row : ActivityRow)
    (h : row.daily_reset_date = today) :
    getDailyActivity today (some row) =
      (⟨row.daily_messages, row.daily_replies, row.daily_reactions,
        row.daily_voice⟩, some row) := by
  simp [getDailyActivity, h]

theorem getDailyActivity_roll (today : ℕ) (row : ActivityRow)
    (h : row.daily_reset_date ≠ today) :
    getDailyActivity today (some row) =
      (⟨0, 0, 0, 0⟩,
        some { row with
                daily_messages := 0, daily_replies := 0,
                daily_reactions := 0, daily_voice := 0,
                daily_reset_date := today }) := by
  simp [getDailyActivity, h]

theorem clamp_le {b c : ℚ} (h : 0 ≤ c) : min b (max 0 (c - 0)) ≤ c := by
  have h1 : min b (max 0 (c - 0)) ≤ max 0 (c - 0) := min_le_right _ _
  have h2 : max 0 (c - 0) = c - 0 := max_eq_right (by linarith)
  linarith

/-- The activity_settings schema defaults (tracking disabled, NFT bonus
disabled), the record batchUpdateActivity falls back to field by field
when settings is null. -/
def defaultActivitySettings : ActivitySettings :=
  ⟨false, some 1, some 2, some (1/2), some (1/10),
   some 100, some 50, some 50, some 120,
   false, 1, some 1, 3, some (6/5), 5, some (3/2)⟩

/-! ## Helper lemmas -/

theorem jsRound_eq_floor (q : ℚ) : jsRound q = ⌊q + 1/2⌋ := by
  rw [jsRound, Rat.floor_def', Rat.floor_def]

example : calcEffectiveVoiceMinutes 10 true false = 5 := by decide
example : calcEffectiveVoiceMinutes 10 true true = 0 := by decide
example : jsRound (3/2) = 2 := by rw [jsRound_eq_floor]; norm_num
example : round2 (1234567/1000000) = 123/100 := by
  rw [round2, jsRound_eq_floor]; norm_num

example : levenshteinDistance "hello 1".data "hello 2".data = 1 := by decide
example : levenshteinDistance "abcd".data "abcde".data = 1 := by decide
example : levenshteinDistance "kitten".data "sitting".data = 3 := by decide
example : levenshteinDistance "".data "abc".data = 3 := by decide


theorem round2_zero : round2 0 = 0 := by
  rw [round2, jsRound_eq_floor]; norm_num

theorem getPenaltyMultiplier_eq_zero_iff (flags : List String) :
    getPenaltyMultiplier flags = 0 ↔ 3 ≤ flags.length := by
  unfold getPenaltyMultiplier
  split_ifs with h1 h2
  · simp [h1]
  · simp [h1]
  · simp [h1]

theorem flagUser_nodup (flags : List String) (r : String)
    (h : flags.Nodup) : (flagUser flags r).Nodup := by
  unfold flagUser
  split_ifs with hm
  · exact h
  · simpa [List.nodup_append, hm] using h

theorem foldl_flagUser_nodup (rs : List String) (acc : List String)
    (h : acc.Nodup) : (rs.foldl flagUser acc).Nodup := by
  induction rs generalizing acc with
  | nil => simpa using h
  | cons r rest ih => exact ih _ (flagUser_nodup acc r h)

theorem foldl_flagUser_mem (rs : List String) (acc : List String) (x : String)
    (h : x ∈ rs.foldl flagUser acc) : x ∈ acc ∨ x ∈ rs := by
  induction rs generalizing acc with
  | nil => exact Or.inl (by simpa using h)
  | cons r rest ih =>
    rcases ih (flagUser acc r) h with hx | hx
    · unfold flagUser at hx
      split_ifs at hx with hm
      · exact Or.inl hx
      · rcases List.mem_append.mp hx with hx | hx
        · exact Or.inl hx
        · exact Or.inr (by simpa using Or.inl (List.mem_singleton.mp hx))
    · exact Or.inr (List.mem_cons_of_mem _ hx)

/-! ## C7 -/

/-- C7: for every voice session and raw elapsed minute count, the
AFK-adjusted credit is 0 when muted and deafened, floor(raw × 0.5) when
exactly one of the two flags is set, raw when neither, in every case
capped at 240 minutes per checkpoint interval; in particular 10 minutes
muted-only credits 5 and muted+deafened credits 0. -/
theorem C7_voice_afk_credit :
    (∀ raw : ℕ, calcEffectiveVoiceMinutes raw true true = 0) ∧
    (∀ raw : ℕ, calcEffectiveVoiceMinutes raw true false = min (raw / 2) 240) ∧
    (∀ raw : ℕ, calcEffectiveVoiceMinutes raw false true = min (raw / 2) 240) ∧
    (∀ raw : ℕ, calcEffectiveVoiceMinutes raw false false = min raw 240) ∧
    calcEffectiveVoiceMinutes 10 true false = 5 ∧
    calcEffectiveVoiceMinutes 10 true true = 0 :=
  ⟨fun _ => rfl, fun _ => rfl, fun _ => rfl, fun _ => rfl, by decide, by decide⟩

/-! ## C10 -/

/-- C10: flagUser is idempotent per reason — flagging with a reason
already present leaves the flag list and hence the penalty multiplier
unchanged — and any sequence of flagUser calls produces a duplicate-free
flag list drawn from the requested reasons, so multiplier 0.0 requires at
least three distinct reasons. -/
theorem C10_flag_idempotent :
    (∀ (flags : List String) (r : String), r ∈ flags → flagUser flags r = flags) ∧
    (∀ (flags : List String) (r : String),
        flagUser (flagUser flags r) r = flagUser flags r) ∧
    (∀ (flags : List String) (r : String), r ∈ flags →
        getPenaltyMultiplier (flagUser flags r) = getPenaltyMultiplier flags) ∧
    (∀ rs : List String, getPenaltyMultiplier (rs.foldl flagUser []) = 0 →
        3 ≤ (rs.foldl flagUser []).length ∧ (rs.foldl flagUser []).Nodup ∧
        ∀ r ∈ rs.foldl flagUser [], r ∈ rs) := by
  refine ⟨fun flags r h => by simp [flagUser, h], fun flags r => ?_,
    fun flags r h => by simp [flagUser, h], fun rs h => ?_⟩
  · by_cases h : r ∈ flags
    · simp [flagUser, h]
    · simp [flagUser, h]
  · refine ⟨(getPenaltyMultiplier_eq_zero_iff _).mp h,
      foldl_flagUser_nodup rs [] (by simp), fun r hr => ?_⟩
    rcases foldl_flagUser_mem rs [] r hr with h0 | h0
    · simp at h0
    · exact h0

theorem C10_flag_idempotent_witness :
    ("reaction_farming" ∈ ["reaction_farming"] ∧
      flagUser ["reaction_farming"] "reaction_farming" = ["reaction_farming"]) ∧
    (getPenaltyMultiplier (["a", "b", "c"].foldl flagUser []) = 0 ∧
      3 ≤ (["a", "b", "c"].foldl flagUser []).length) :=
  ⟨⟨by decide, C10_flag_idempotent.1 ["reaction_farming"] "reaction_farming" (by decide)⟩,
   ⟨by simp [flagUser, getPenaltyMultiplier],
    (C10_flag_idempotent.2.2.2 ["a", "b", "c"]
      (by simp [flagUser, getPenaltyMultiplier])).1⟩⟩

/-! ## C9 -/

/-- C9 counterexample: the sources length gate compares the raw string
length, not the trimmed length.  The message consisting of two spaces and
the letter a has trimmed length 1 < 3 yet is scored from a fresh filter
state. -/
theorem C9_counterexample :
    (jsTrim "  a").length < minMessageLength ∧
    (shouldScoreMessage 0 "  a" ⟨none, none, []⟩).1 = true := by
  constructor
  · decide
  · decide

/-- C9 amended: shouldScoreMessage rejects every message whose raw
(untrimmed) length is below config.activity.minMessageLength, leaving the
filter state untouched. -/
theorem C9_amended_min_length :
    ∀ (now : ℤ) (content : String) (st : MsgState),
      content.length < minMessageLength →
      shouldScoreMessage now content st = (false, st) := by
  intro now content st h
  unfold shouldScoreMessage
  rw [if_pos h]

theorem C9_amended_min_length_witness :
    "a".length < minMessageLength ∧
    shouldScoreMessage 0 "a" ⟨none, none, []⟩ = (false, ⟨none, none, []⟩) :=
  ⟨by decide, C9_amended_min_length 0 "a" ⟨none, none, []⟩ (by decide)⟩

/-! ## C5 -/

/-- C5: when any store write of a flush cycle fails, processBatch puts the
original pre-aggregation events — not the per-actor aggregates — back
onto the activity queue for the next cycle, so no event of the failed
cycle is dropped. -/
theorem C5_requeue_on_failure :
    ∀ (today : ℕ) (settingsOf : String → Option ActivitySettings)
      (verified : String → String → Option ℚ) (failing : String → Bool)
      (store : String × String → Option ActivityRow)
      (queue : List ActivityEvent),
      (writeGuilds today settingsOf verified failing store
          (groupByGuild (aggregateEvents queue))).2 = false →
      (processBatch today settingsOf verified failing store queue).2 = queue ∧
      ∀ e ∈ queue,
        e ∈ (processBatch today settingsOf verified failing store queue).2 := by
  intro today settingsOf verified failing store queue hfail
  have hne : queue.isEmpty = false := by
    by_contra h
    have hq : queue = [] := by
      cases queue with
      | nil => rfl
      | cons a as => simp [List.isEmpty] at h
    rw [hq] at hfail
    simp [aggregateEvents, groupByGuild, writeGuilds] at hfail
  have : processBatch today settingsOf verified failing store queue =
      ((writeGuilds today settingsOf verified failing store
          (groupByGuild (aggregateEvents queue))).1, queue) := by
    rw [processBatch, hne]
    simp only [Bool.false_eq_true, if_false, hfail]
  rw [this]
  exact ⟨rfl, fun e he => he⟩

theorem C5_requeue_on_failure_witness :
    ((writeGuilds 0 (fun _ => none) (fun _ _ => none) (fun _ => true)
        (fun _ => none)
        (groupByGuild (aggregateEvents [⟨"g", "u", .message, 1⟩]))).2 = false) ∧
    (processBatch 0 (fun _ => none) (fun _ _ => none) (fun _ => true)
        (fun _ => none) [⟨"g", "u", .message, 1⟩]).2 =
      [⟨"g", "u", .message, 1⟩] :=
  ⟨rfl,
   (C5_requeue_on_failure 0 (fun _ => none) (fun _ _ => none) (fun _ => true)
      (fun _ => none) [⟨"g", "u", .message, 1⟩] rfl).1⟩

/-! ## C6 -/

theorem handleReactionAdd_step (now : ℤ) (m : String) (rd : ReactionData)
    (h : now - rd.windowStart ≤ reactionWindowMs) :
    (handleReactionAdd now m false (some rd)).1 =
      some ⟨rd.count + 1, rd.windowStart, insert m rd.uniqueMessages⟩ := by
  have hw : ¬ (reactionWindowMs < now - rd.windowStart) := not_lt.mpr h
  unfold handleReactionAdd
  simp only [Bool.false_eq_true, if_false, hw]
  split_ifs <;> rfl

theorem handleReactionAdd_first (t0 : ℤ) (m : String) :
    (handleReactionAdd t0 m false none).1 = some ⟨1, t0, {m}⟩ := by
  unfold handleReactionAdd
  simp only [Bool.false_eq_true, if_false]
  split_ifs <;> simp

theorem runReactions_inWindow :
    ∀ (evs : List (ℤ × String)) (rd : ReactionData),
      (∀ e ∈ evs, e.1 - rd.windowStart ≤ reactionWindowMs) →
      runReactions (some rd) evs =
        some ⟨rd.count + evs.length, rd.windowStart,
              evs.foldl (fun s e => insert e.2 s) rd.uniqueMessages⟩ := by
  intro evs
  induction evs with
  | nil => intro rd _; simp [runReactions]
  | cons e rest ih =>
    intro rd h
    have h1 : e.1 - rd.windowStart ≤ reactionWindowMs := h e (by simp)
    have hstep := handleReactionAdd_step e.1 e.2 rd h1
    have hrest :
        ∀ x ∈ rest,
          x.1 - (⟨rd.count + 1, rd.windowStart,
              insert e.2 rd.uniqueMessages⟩ : ReactionData).windowStart ≤
            reactionWindowMs :=
      fun x hx => h x (List.mem_cons_of_mem _ hx)
    have : runReactions (some rd) (e :: rest) =
        runReactions (some ⟨rd.count + 1, rd.windowStart,
          insert e.2 rd.uniqueMessages⟩) rest := by
      simp only [runReactions, List.foldl_cons, hstep]
    rw [this, ih _ hrest]
    simp only [List.length_cons, List.foldl_cons]
    congr 2
    omega

theorem handleReactionAdd_blocked (now : ℤ) (m : String) (rd : ReactionData)
    (hw : now - rd.windowStart ≤ reactionWindowMs)
    (hc : reactionMaxPerWindow ≤ rd.count) :
    (handleReactionAdd now m false (some rd)).2.1 = false := by
  have hw2 : ¬ (reactionWindowMs < now - rd.windowStart) := not_lt.mpr hw
  unfold handleReactionAdd
  simp only [Bool.false_eq_true, if_false, hw2]
  rw [if_pos (by omega : reactionMaxPerWindow < rd.count + 1)]

theorem handleReactionAdd_farm (now : ℤ) (m : String) (rd : ReactionData)
    (hw : now - rd.windowStart ≤ reactionWindowMs)
    (hcl : rd.count + 1 ≤ reactionMaxPerWindow)
    (hc : 10 < rd.count + 1)
    (hr : (((insert m rd.uniqueMessages).card : ℚ) / ((rd.count + 1 : ℕ) : ℚ)) < 3/10) :
    (handleReactionAdd now m false (some rd)).2.1 = false ∧
    (handleReactionAdd now m false (some rd)).2.2 = true := by
  have hw2 : ¬ (reactionWindowMs < now - rd.windowStart) := not_lt.mpr hw
  unfold handleReactionAdd
  simp only [Bool.false_eq_true, if_false, hw2]
  rw [if_neg (by omega : ¬ (reactionMaxPerWindow < rd.count + 1)),
    if_pos ⟨hc, hr⟩]
  exact ⟨rfl, rfl⟩

theorem foldl_insert_const (m : String) :
    ∀ (ts : List ℤ) (s : Finset String), m ∈ s →
      ((ts.map (fun t => (t, m))).foldl (fun s e => insert e.2 s) s) = s := by
  intro ts
  induction ts with
  | nil => intro s _; rfl
  | cons t rest ih =>
    intro s hm
    simp only [List.map_cons, List.foldl_cons]
    rw [Finset.insert_eq_self.mpr hm]
    exact ih s hm

/-- C6: within one rolling 5-minute window of the reaction guard, the
31st reaction of an actor is rejected with no event emitted; the 11th
reaction to one and the same message is rejected and flagged
reaction_farming (count > 10 with distinct-target share 1/11 < 0.3); and
a reaction to the own message of the actor is never tracked at all. -/
theorem C6_reaction_guard :
    (∀ (e0 : ℤ × String) (rest : List (ℤ × String)) (now : ℤ) (m : String),
        (e0 :: rest).length = 30 →
        (∀ e ∈ rest, e.1 - e0.1 ≤ reactionWindowMs) →
        now - e0.1 ≤ reactionWindowMs →
        (handleReactionAdd now m false (runReactions none (e0 :: rest))).2.1 = false) ∧
    (∀ (t0 : ℤ) (ts : List ℤ) (now : ℤ) (m : String),
        ts.length = 9 →
        (∀ t ∈ ts, t - t0 ≤ reactionWindowMs) →
        now - t0 ≤ reactionWindowMs →
        (handleReactionAdd now m false
            (runReactions none ((t0 :: ts).map (fun t => (t, m))))).2.1 = false ∧
        (handleReactionAdd now m false
            (runReactions none ((t0 :: ts).map (fun t => (t, m))))).2.2 = true) ∧
    (∀ (now : ℤ) (messageId : String) (rd? : Option ReactionData),
        handleReactionAdd now messageId true rd? = (rd?, false, false)) := by
  refine ⟨?_, ?_, ?_⟩
  · intro e0 rest now m hlen hwin hnow
    have hrun : runReactions none (e0 :: rest) =
        runReactions (some ⟨1, e0.1, {e0.2}⟩) rest := by
      simp only [runReactions, List.foldl_cons, handleReactionAdd_first]
    have hlen29 : rest.length = 29 := by simpa using hlen
    rw [hrun, runReactions_inWindow rest ⟨1, e0.1, {e0.2}⟩ hwin]
    exact handleReactionAdd_blocked now m _ hnow (by simp [hlen29, reactionMaxPerWindow])
  · intro t0 ts now m hlen hwin hnow
    have hrun : runReactions none ((t0 :: ts).map (fun t => (t, m))) =
        runReactions (some ⟨1, t0, {m}⟩) (ts.map (fun t => (t, m))) := by
      simp only [List.map_cons, runReactions, List.foldl_cons, handleReactionAdd_first]
    have hwin2 : ∀ e ∈ ts.map (fun t => (t, m)),
        e.1 - (⟨1, t0, {m}⟩ : ReactionData).windowStart ≤ reactionWindowMs := by
      intro e he
      rcases List.mem_map.mp he with ⟨t, ht, rfl⟩
      exact hwin t ht
    have hfold := foldl_insert_const m ts ({m} : Finset String) (Finset.mem_singleton_self m)
    have hstate : runReactions none ((t0 :: ts).map (fun t => (t, m))) =
        some ⟨10, t0, {m}⟩ := by
      rw [hrun, runReactions_inWindow _ _ hwin2]
      simp [hfold, hlen]
    rw [hstate]
    refine handleReactionAdd_farm now m ⟨10, t0, {m}⟩ hnow
      (by simp [reactionMaxPerWindow]) (by simp) ?_
    rw [Finset.insert_eq_self.mpr (Finset.mem_singleton_self m)]
    simp only [Finset.card_singleton]
    norm_num
  · intro now messageId rd?
    simp [handleReactionAdd]

theorem C6_reaction_guard_witness :
    ((((0 : ℤ), "m0") :: List.replicate 29 ((0 : ℤ), "m0")).length = 30 ∧
      (handleReactionAdd 0 "x" false
        (runReactions none (((0 : ℤ), "m0") :: List.replicate 29 ((0 : ℤ), "m0")))).2.1 =
        false) ∧
    ((List.replicate 9 (0 : ℤ)).length = 9 ∧
      (handleReactionAdd 0 "m" false
        (runReactions none
          (((0 : ℤ) :: List.replicate 9 (0 : ℤ)).map (fun t => (t, "m"))))).2.2 = true) ∧
    handleReactionAdd 0 "y" true none = (none, false, false) :=
  ⟨⟨by decide,
    C6_reaction_guard.1 ((0 : ℤ), "m0") (List.replicate 29 ((0 : ℤ), "m0")) 0 "x"
      (by decide) (by decide) (by decide)⟩,
   ⟨by decide,
    (C6_reaction_guard.2.1 0 (List.replicate 9 (0 : ℤ)) 0 "m"
      (by decide) (by decide) (by decide)).2⟩,
   C6_reaction_guard.2.2 0 "y" none⟩

/-! ## C3 -/

theorem clamp_add_le {a b c : ℚ} (h : a ≤ c) :
    a + min b (max 0 (c - a)) ≤ c := by
  have h1 : min b (max 0 (c - a)) ≤ max 0 (c - a) := min_le_right _ _
  have h2 : max 0 (c - a) = c - a := max_eq_right (sub_nonneg.mpr h)
  linarith

theorem applyActivityUpdate_capsOK
    (today : ℕ) (s? : Option ActivitySettings) (verified : Option ℚ)
    (row? : Option ActivityRow) (u : ActivityUpdate)
    (hM : 0 ≤ settingField s? (·.daily_message_cap) 100)
    (hR : 0 ≤ settingField s? (·.daily_reply_cap) 50)
    (hRe : 0 ≤ settingField s? (·.daily_reaction_cap) 50)
    (hV : 0 ≤ settingField s? (·.daily_voice_cap) 120)
    (hpre : dailyCapsOK s? today row?) :
    dailyCapsOK s? today (applyActivityUpdate today s? verified row? u) := by
  intro r hr hdate
  unfold applyActivityUpdate at hr
  cases row? with
  | none =>
    simp only [getDailyActivity] at hr
    by_cases hskip :
        (effectiveCounts s? ⟨0, 0, 0, 0⟩ u).message_count = 0 ∧
        (effectiveCounts s? ⟨0, 0, 0, 0⟩ u).reply_count = 0 ∧
        (effectiveCounts s? ⟨0, 0, 0, 0⟩ u).reaction_count = 0 ∧
        (effectiveCounts s? ⟨0, 0, 0, 0⟩ u).voice_minutes = 0
    · rw [if_pos hskip] at hr
      exact absurd hr (by simp)
    · rw [if_neg hskip] at hr
      replace hr := (Option.some_inj.mp hr).symm
      subst hr
      refine ⟨?_, ?_, ?_, ?_⟩ <;> dsimp only [effectiveCounts]
      · exact clamp_le hM
      · exact clamp_le hR
      · exact clamp_le hRe
      · exact clamp_le hV
  | some row =>
    by_cases hrow : row.daily_reset_date = today
    · rw [getDailyActivity_same today row hrow] at hr
      dsimp only at hr
      simp only [hrow, eq_self_iff_true, if_true] at hr
      by_cases hskip :
          (effectiveCounts s? ⟨row.daily_messages, row.daily_replies,
            row.daily_reactions, row.daily_voice⟩ u).message_count = 0 ∧
          (effectiveCounts s? ⟨row.daily_messages, row.daily_replies,
            row.daily_reactions, row.daily_voice⟩ u).reply_count = 0 ∧
          (effectiveCounts s? ⟨row.daily_messages, row.daily_replies,
            row.daily_reactions, row.daily_voice⟩ u).reaction_count = 0 ∧
          (effectiveCounts s? ⟨row.daily_messages, row.daily_replies,
            row.daily_reactions, row.daily_voice⟩ u).voice_minutes = 0
      · rw [if_pos hskip] at hr
        exact (Option.some_inj.mp hr) ▸ hpre row rfl hrow
      · rw [if_neg hskip] at hr
        replace hr := (Option.some_inj.mp hr).symm
        subst hr
        have hb := hpre row rfl hrow
        refine ⟨?_, ?_, ?_, ?_⟩ <;> dsimp only [effectiveCounts]
        · exact clamp_add_le hb.1
        · exact clamp_add_le hb.2.1
        · exact clamp_add_le hb.2.2.1
        · exact clamp_add_le hb.2.2.2
    · rw [getDailyActivity_roll today row hrow] at hr
      dsimp only at hr
      simp only [eq_self_iff_true, if_true] at hr
      by_cases hskip :
          (effectiveCounts s? ⟨0, 0, 0, 0⟩ u).message_count = 0 ∧
          (effectiveCounts s? ⟨0, 0, 0, 0⟩ u).reply_count = 0 ∧
          (effectiveCounts s? ⟨0, 0, 0, 0⟩ u).reaction_count = 0 ∧
          (effectiveCounts s? ⟨0, 0, 0, 0⟩ u).voice_minutes = 0
      · rw [if_pos hskip] at hr
        replace hr := (Option.some_inj.mp hr).symm
        subst hr
        exact ⟨hM, hR, hRe, hV⟩
      · rw [if_neg hskip] at hr
        replace hr := (Option.some_inj.mp hr).symm
        subst hr
        refine ⟨?_, ?_, ?_, ?_⟩ <;> dsimp only [effectiveCounts] <;> rw [zero_add]
        · exact clamp_le hM
        · exact clamp_le hR
        · exact clamp_le hRe
        · exact clamp_le hV

theorem batchUpdateActivity_capsOK
    (today : ℕ) (s? : Option ActivitySettings) (verified : String → Option ℚ)
    (hM : 0 ≤ settingField s? (·.daily_message_cap) 100)
    (hR : 0 ≤ settingField s? (·.daily_reply_cap) 50)
    (hRe : 0 ≤ settingField s? (·.daily_reaction_cap) 50)
    (hV : 0 ≤ settingField s? (·.daily_voice_cap) 120) :
    ∀ (updates : List (String × ActivityUpdate))
      (store : String → Option ActivityRow),
      (∀ k, dailyCapsOK s? today (store k)) →
      ∀ k, dailyCapsOK s? today
        (batchUpdateActivity today s? verified store updates k) := by
  intro updates
  induction updates with
  | nil => intro store hstore k; exact hstore k
  | cons p rest ih =>
    intro store hstore k
    have hstep : ∀ k, dailyCapsOK s? today
        (Function.update store p.1
          (applyActivityUpdate today s? (verified p.1) (store p.1) p.2) k) := by
      intro j
      rw [Function.update_apply]
      split_ifs with hj
      · exact applyActivityUpdate_capsOK today s? (verified p.1) (store p.1) p.2
          hM hR hRe hV (hstore p.1)
      · exact hstore j
    exact ih _ hstep k

/-- C3: after any batch write, every stored row carrying the current
reset date keeps each daily sub-counter within the configured cap of its
kind (clamping to min(count, max(0, cap − used))), and whenever the
stored reset date differs from today, getDailyActivity first zeroes the
four daily counters and stamps today before any delta is applied. -/
theorem C3_daily_caps_invariant
    (today : ℕ) (s? : Option ActivitySettings) (verified : String → Option ℚ)
    (store : String → Option ActivityRow)
    (updates : List (String × ActivityUpdate))
    (hM : 0 ≤ settingField s? (·.daily_message_cap) 100)
    (hR : 0 ≤ settingField s? (·.daily_reply_cap) 50)
    (hRe : 0 ≤ settingField s? (·.daily_reaction_cap) 50)
    (hV : 0 ≤ settingField s? (·.daily_voice_cap) 120)
    (hstore : ∀ k, dailyCapsOK s? today (store k)) :
    (∀ row : ActivityRow, row.daily_reset_date ≠ today →
        getDailyActivity today (some row) =
          (⟨0, 0, 0, 0⟩,
            some { row with
                    daily_messages := 0, daily_replies := 0,
                    daily_reactions := 0, daily_voice := 0,
                    daily_reset_date := today })) ∧
    ∀ k, dailyCapsOK s? today
      (batchUpdateActivity today s? verified store updates k) :=
  ⟨fun row h => getDailyActivity_roll today row h,
   batchUpdateActivity_capsOK today s? verified hM hR hRe hV updates store hstore⟩

theorem C3_daily_caps_invariant_witness :
    ((0 : ℚ) ≤ settingField none (·.daily_message_cap) 100 ∧
      (∀ k : String,
        dailyCapsOK none 0 ((fun _ : String => (none : Option ActivityRow)) k))) ∧
    ∀ k : String, dailyCapsOK none 0
      (batchUpdateActivity 0 none (fun _ => none) (fun _ => none)
        [("u", ⟨1, 0, 0, 0⟩)] k) :=
  ⟨⟨by decide, fun _ r h _ => by cases h⟩,
   (C3_daily_caps_invariant 0 none (fun _ => none) (fun _ => none)
      [("u", ⟨1, 0, 0, 0⟩)] (by decide) (by decide) (by decide) (by decide)
      (fun _ r h _ => by cases h)).2⟩

/-! ## C2 -/

theorem totalScoreOf_getDailyActivity (today : ℕ) (row? : Option ActivityRow) :
    totalScoreOf (getDailyActivity today row?).2 = totalScoreOf row? := by
  cases row? with
  | none => rfl
  | some row =>
    by_cases h : row.daily_reset_date = today
    · rw [getDailyActivity_same today row h]
    · rw [getDailyActivity_roll today row h]
      rfl

theorem applyActivityUpdate_total (today : ℕ) (s? : Option ActivitySettings)
    (verified : Option ℚ) (row? : Option ActivityRow) (u : ActivityUpdate) :
    totalScoreOf (applyActivityUpdate today s? verified row? u) =
      totalScoreOf row? +
        round2 (baseScoreOf s?
            (effectiveCounts s? (getDailyActivity today row?).1 u) *
          nftMultiplierOf s? verified) := by
  rw [← totalScoreOf_getDailyActivity today row?]
  unfold applyActivityUpdate
  set p := getDailyActivity today row? with hp
  dsimp only
  by_cases hskip : (effectiveCounts s? p.1 u).message_count = 0 ∧
      (effectiveCounts s? p.1 u).reply_count = 0 ∧
      (effectiveCounts s? p.1 u).reaction_count = 0 ∧
      (effectiveCounts s? p.1 u).voice_minutes = 0
  · rw [if_pos hskip]
    obtain ⟨h1, h2, h3, h4⟩ := hskip
    rw [show baseScoreOf s? (effectiveCounts s? p.1 u) = 0 from by
      rw [baseScoreOf, h1, h2, h3, h4]; ring]
    rw [zero_mul, round2_zero, add_zero]
  · rw [if_neg hskip]
    rcases hrow : p.2 with _ | row
    · simp [totalScoreOf]
    · simp [totalScoreOf]

/-- C2 amended: for every actor aggregate of a flush batch, the persisted
score delta is round2(Σ(clamped kind count × kind weight) × holding-tier
multiplier) — the clamped count being min(count, max(0, cap − daily
used)) after rollover, the holding multiplier coming from the highest
qualifying tier — with NO penalty-multiplier factor: batchUpdateActivity
never consults the penalty ledger. -/
theorem C2_amended_delta :
    ∀ (today : ℕ) (s? : Option ActivitySettings) (verified : Option ℚ)
      (row? : Option ActivityRow) (u : ActivityUpdate),
      totalScoreOf (applyActivityUpdate today s? verified row? u) =
        totalScoreOf row? +
          round2 (baseScoreOf s?
              (effectiveCounts s? (getDailyActivity today row?).1 u) *
            nftMultiplierOf s? verified) :=
  applyActivityUpdate_total

theorem effectiveCounts_one_message :
    effectiveCounts none ⟨0, 0, 0, 0⟩ ⟨1, 0, 0, 0⟩ = ⟨1, 0, 0, 0⟩ := by
  simp [effectiveCounts, settingField]

/-- C2 counterexample: an actor carrying 2 flags has penalty multiplier
0.5, yet a one-message aggregate writes delta 1, not
round2(1 × 1 × 0.5) = 0.5 as the claimed formula demands: the write path
has no penalty factor. -/
theorem C2_counterexample :
    getPenaltyMultiplier ["a", "b"] = 1/2 ∧
    totalScoreOf (applyActivityUpdate 0 none none none ⟨1, 0, 0, 0⟩) = 1 ∧
    round2 (baseScoreOf none (effectiveCounts none ⟨0, 0, 0, 0⟩ ⟨1, 0, 0, 0⟩) *
        nftMultiplierOf none none * getPenaltyMultiplier ["a", "b"]) = 1/2 ∧
    (1 : ℚ) ≠ 1/2 := by
  have hpen : getPenaltyMultiplier ["a", "b"] = 1/2 := by
    simp [getPenaltyMultiplier]
  refine ⟨hpen, ?_, ?_, by norm_num⟩
  · rw [applyActivityUpdate_total]
    rw [show (getDailyActivity 0 none).1 = ⟨0, 0, 0, 0⟩ from rfl,
      effectiveCounts_one_message]
    show 0 + round2 (baseScoreOf none ⟨1, 0, 0, 0⟩ * nftMultiplierOf none none) = 1
    rw [show nftMultiplierOf none none = 1 from rfl]
    rw [show baseScoreOf none ⟨1, 0, 0, 0⟩ =
        1 * 1 + 0 * 2 + 0 * (1/2) + 0 * (1/10) from rfl]
    rw [round2, jsRound_eq_floor]
    norm_num
  · rw [effectiveCounts_one_message, hpen]
    rw [show nftMultiplierOf none none = 1 from rfl]
    rw [show baseScoreOf none ⟨1, 0, 0, 0⟩ =
        1 * 1 + 0 * 2 + 0 * (1/2) + 0 * (1/10) from rfl]
    rw [round2, jsRound_eq_floor]
    norm_num

/-! ## C1 -/

/-- C1 amended: an actor with at least 3 accumulated flags has penalty
multiplier 0.0 and is blocked at the intake gate for messages and
reactions (isUserBlocked short-circuits the handlers), so no new message
or reaction event is generated for them; the batch write itself applies
no penalty factor, so events of theirs that do reach the queue — voice
has no such gate — are still credited. -/
theorem C1_amended_blocked_gate :
    ∀ flags : List String, 3 ≤ flags.length →
      getPenaltyMultiplier flags = 0 ∧ isUserBlocked flags = true ∧
      messageGateAdmits flags = false := by
  intro flags h
  have h0 : getPenaltyMultiplier flags = 0 := by simp [getPenaltyMultiplier, h]
  refine ⟨h0, ?_, ?_⟩
  · simp [isUserBlocked, h0]
  · simp [messageGateAdmits, isUserBlocked, h0]

theorem C1_amended_blocked_gate_witness :
    3 ≤ (["a", "b", "c"] : List String).length ∧
    (getPenaltyMultiplier ["a", "b", "c"] = 0 ∧
      isUserBlocked ["a", "b", "c"] = true ∧
      messageGateAdmits ["a", "b", "c"] = false) :=
  ⟨by decide, C1_amended_blocked_gate ["a", "b", "c"] (by decide)⟩

theorem effectiveCounts_ten_voice :
    effectiveCounts none ⟨0, 0, 0, 0⟩ ⟨0, 0, 0, 10⟩ = ⟨0, 0, 0, 10⟩ := by
  simp [effectiveCounts, settingField]
  norm_num

/-- C1 counterexample: an actor whose flag list has 3 entries has penalty
multiplier 0, yet a flush cycle whose queue holds a 10-minute voice event
of theirs writes a score delta of 1, not 0: processBatch and
batchUpdateActivity never consult the flag ledger. -/
theorem C1_counterexample :
    getPenaltyMultiplier ["a", "b", "c"] = 0 ∧
    totalScoreOf ((processBatch 0 (fun _ => none) (fun _ _ => none)
        (fun _ => false) (fun _ => none)
        [⟨"g", "u", EventKind.voice, 10⟩]).1 ("g", "u")) = 1 ∧
    (1 : ℚ) ≠ 0 := by
  refine ⟨by simp [getPenaltyMultiplier], ?_, by norm_num⟩
  have hred : (processBatch 0 (fun _ => none) (fun _ _ => none) (fun _ => false)
      (fun _ => none) [⟨"g", "u", EventKind.voice, 10⟩]).1 ("g", "u") =
      applyActivityUpdate 0 none none none ⟨0, 0, 0, 10⟩ := by
    simp [processBatch, aggregateEvents, addEvent, bumpUpdate, groupByGuild,
      addToGuildGroups, writeGuilds, batchUpdateActivity, Function.update_same]
  rw [hred, applyActivityUpdate_total]
  rw [show totalScoreOf (none : Option ActivityRow) = 0 from rfl]
  rw [show (getDailyActivity 0 none).1 = ⟨0, 0, 0, 0⟩ from rfl,
    effectiveCounts_ten_voice]
  rw [show nftMultiplierOf none none = 1 from rfl]
  rw [show baseScoreOf none ⟨0, 0, 0, 10⟩ =
      0 * 1 + 0 * 2 + 0 * (1/2) + 10 * (1/10) from rfl]
  rw [round2, jsRound_eq_floor]
  norm_num

/-! ## C4 -/

/-- C4 amended: a missing settings record makes the community untracked
only at event intake (getActivitySettingsIfEnabled returns none, so the
handlers emit no events); the flush cycle itself performs no settings
check — aggregates present for a community whose settings lookup returns
null are written with the schema-default weights and caps, exactly as if
the default settings row were present, rather than being dropped. -/
theorem C4_amended_missing_settings :
    (∀ g : Bool, getActivitySettingsIfEnabled g none = none) ∧
    (∀ (today : ℕ) (verified : Option ℚ) (row? : Option ActivityRow)
        (u : ActivityUpdate),
      applyActivityUpdate today none verified row? u =
        applyActivityUpdate today (some defaultActivitySettings) verified row? u) := by
  constructor
  · intro g
    cases g <;> rfl
  · intro today verified row? u
    rfl

/-- C4 counterexample: a flush whose settings lookup returns none still
writes a row for the aggregated actor — with default weights, delta 1 for
one message — instead of dropping the aggregate without a store write. -/
theorem C4_counterexample :
    (processBatch 0 (fun _ => none) (fun _ _ => none) (fun _ => false)
        (fun _ => none) [⟨"g", "u", EventKind.message, 1⟩]).1 ("g", "u") ≠
      none ∧
    totalScoreOf ((processBatch 0 (fun _ => none) (fun _ _ => none)
        (fun _ => false) (fun _ => none)
        [⟨"g", "u", EventKind.message, 1⟩]).1 ("g", "u")) = 1 := by
  have hred : (processBatch 0 (fun _ => none) (fun _ _ => none) (fun _ => false)
      (fun _ => none) [⟨"g", "u", EventKind.message, 1⟩]).1 ("g", "u") =
      applyActivityUpdate 0 none none none ⟨1, 0, 0, 0⟩ := by
    simp [processBatch, aggregateEvents, addEvent, bumpUpdate, groupByGuild,
      addToGuildGroups, writeGuilds, batchUpdateActivity, Function.update_same]
  constructor
  · rw [hred]
    simp only [applyActivityUpdate, getDailyActivity]
    rw [effectiveCounts_one_message]
    simp
  · rw [hred, applyActivityUpdate_total]
    rw [show totalScoreOf (none : Option ActivityRow) = 0 from rfl]
    rw [show (getDailyActivity 0 none).1 = ⟨0, 0, 0, 0⟩ from rfl,
      effectiveCounts_one_message]
    rw [show nftMultiplierOf none none = 1 from rfl]
    rw [show baseScoreOf none ⟨1, 0, 0, 0⟩ =
        1 * 1 + 0 * 2 + 0 * (1/2) + 0 * (1/10) from rfl]
    rw [round2, jsRound_eq_floor]
    norm_num

/-! ## C8 -/

theorem ratio7_iff (a b : ℕ) (hb : 0 < b) :
    ((7 : ℚ)/10 < (a : ℚ)/(b : ℚ)) ↔ 7 * b < a * 10 := by
  rw [div_lt_div_iff₀ (by norm_num) (by exact_mod_cast hb : (0:ℚ) < (b:ℚ))]
  norm_cast

theorem ratio6_iff (a b : ℕ) (hb : 0 < b) :
    ((6 : ℚ)/10 < (a : ℚ)/(b : ℚ)) ↔ 6 * b < a * 10 := by
  rw [div_lt_div_iff₀ (by norm_num) (by exact_mod_cast hb : (0:ℚ) < (b:ℚ))]
  norm_cast

theorem decide_ratio7_eq (a b : ℕ) :
    decide ((7 : ℚ)/10 < (a : ℚ)/(b : ℚ)) = decide (0 < b ∧ 7 * b < a * 10) := by
  rcases Nat.eq_zero_or_pos b with hb | hb
  · subst hb
    rw [decide_eq_decide]
    simp only [Nat.cast_zero, div_zero]
    constructor
    · intro h; exact absurd h (by norm_num)
    · rintro ⟨h, _⟩; exact absurd h (by omega)
  · rw [decide_eq_decide, ratio7_iff a b hb]
    exact ⟨fun h => ⟨hb, h⟩, fun h => h.2⟩

theorem decide_ratio6_eq (a b : ℕ) :
    decide ((6 : ℚ)/10 < (a : ℚ)/(b : ℚ)) = decide (0 < b ∧ 6 * b < a * 10) := by
  rcases Nat.eq_zero_or_pos b with hb | hb
  · subst hb
    rw [decide_eq_decide]
    simp only [Nat.cast_zero, div_zero]
    constructor
    · intro h; exact absurd h (by norm_num)
    · rintro ⟨h, _⟩; exact absurd h (by omega)
  · rw [decide_eq_decide, ratio6_iff a b hb]
    exact ⟨fun h => ⟨hb, h⟩, fun h => h.2⟩

theorem isGibberish_hello1 : isGibberish "Hello 1" = false := by
  simp only [isGibberish, decide_ratio7_eq, decide_ratio6_eq]
  decide

theorem isGibberish_hello2 : isGibberish "Hello 2" = false := by
  simp only [isGibberish, decide_ratio7_eq, decide_ratio6_eq]
  decide

theorem calcSim_hello : calculateSimilarity "Hello 2" "Hello 1" = 6/7 := by
  simp only [calculateSimilarity]
  rw [if_neg (by decide : ¬("Hello 2" = "" ∨ "Hello 1" = ""))]
  rw [show jsTrim (jsToLower "Hello 2") = "hello 2" from by decide,
    show jsTrim (jsToLower "Hello 1") = "hello 1" from by decide]
  rw [if_pos (by decide : ("hello 2".length < 50 ∨ "hello 1".length < 50))]
  rw [if_neg (by decide : ¬(max "hello 2".length "hello 1".length = 0))]
  rw [show levenshteinDistance "hello 2".data "hello 1".data = 1 from by decide,
    show max "hello 2".length "hello 1".length = 7 from by decide]
  norm_num

theorem isDuplicateMessage_hello2 :
    isDuplicateMessage "Hello 2" ["Hello 1"] = (true, ["Hello 1"]) := by
  unfold isDuplicateMessage
  rw [if_neg (by decide : ¬("Hello 2" = "" ∨ "Hello 2".length < 5))]
  have hany : (["Hello 1"].any fun prev =>
      similarityThreshold ≤ calculateSimilarity "Hello 2" prev) = true := by
    simp only [List.any_cons, List.any_nil, Bool.or_false]
    rw [decide_eq_true_eq, calcSim_hello]
    norm_num [similarityThreshold]
  rw [if_pos hany]

theorem shouldScore_hello1 :
    shouldScoreMessage 0 "Hello 1" ⟨none, none, []⟩ =
      (true, ⟨some 0, some (1, 0), ["Hello 1"]⟩) := by
  unfold shouldScoreMessage
  rw [if_neg (by decide : ¬("Hello 1".length < minMessageLength))]
  rw [isGibberish_hello1]
  rw [if_neg (by decide : ¬(false = true))]
  rw [show isDuplicateMessage "Hello 1" [] = (false, ["Hello 1"]) from by decide]
  decide

theorem shouldScore_hello2 :
    (shouldScoreMessage 20000 "Hello 2" ⟨some 0, some (1, 0), ["Hello 1"]⟩).1 =
      false := by
  unfold shouldScoreMessage
  rw [if_neg (by decide : ¬("Hello 2".length < minMessageLength))]
  rw [isGibberish_hello2]
  rw [if_neg (by decide : ¬(false = true))]
  rw [isDuplicateMessage_hello2]
  decide

theorem calcSim_short_formula (s1 s2 : String) (h1 : s1 ≠ "") (h2 : s2 ≠ "")
    (h50 : (jsTrim (jsToLower s1)).length < 50 ∨ (jsTrim (jsToLower s2)).length < 50)
    (hmax : 0 < max (jsTrim (jsToLower s1)).length (jsTrim (jsToLower s2)).length) :
    calculateSimilarity s1 s2 =
      1 - (levenshteinDistance (jsTrim (jsToLower s1)).data
            (jsTrim (jsToLower s2)).data : ℚ) /
          (max (jsTrim (jsToLower s1)).length (jsTrim (jsToLower s2)).length : ℚ) := by
  simp only [calculateSimilarity]
  rw [if_neg (by tauto : ¬(s1 = "" ∨ s2 = ""))]
  rw [if_pos h50]
  rw [if_neg (by omega :
    ¬(max (jsTrim (jsToLower s1)).length (jsTrim (jsToLower s2)).length = 0))]
  rw [Nat.cast_max]

theorem dup_similar_rejected (now : ℤ) (content : String) (st : MsgState)
    (hlen : 5 ≤ content.length)
    (hex : ∃ prev ∈ st.history,
      similarityThreshold ≤ calculateSimilarity content prev) :
    (shouldScoreMessage now content st).1 = false := by
  unfold shouldScoreMessage
  rw [if_neg (by simp only [minMessageLength]; omega)]
  by_cases hg : isGibberish content = true
  · rw [if_pos hg]
  · rw [if_neg hg]
    have hdup : (isDuplicateMessage content st.history).1 = true := by
      unfold isDuplicateMessage
      have hne : ¬(content = "" ∨ content.length < 5) := by
        rintro (rfl | h)
        · simp at hlen
        · omega
      rw [if_neg hne]
      have hany : (st.history.any fun prev =>
          similarityThreshold ≤ calculateSimilarity content prev) = true := by
        rw [List.any_eq_true]
        obtain ⟨prev, hmem, hsim⟩ := hex
        exact ⟨prev, hmem, decide_eq_true hsim⟩
      rw [if_pos hany]
    dsimp only
    rw [if_pos hdup]

/-- C8 amended: for nonempty messages where either lowercased trimmed
string is shorter than 50 characters (and not both empty), similarity is
1 − editDistance/maxLength, and a message of at least 5 characters is
rejected whenever its similarity to some entry of the stored last-10
history reaches the 0.7 threshold; messages shorter than 5 characters
bypass the duplicate check entirely.  In particular "Hello 1" is accepted
from a fresh state and "Hello 2" is then rejected, with similarity
6/7 ≈ 0.857. -/
theorem C8_amended_duplicate :
    (∀ s1 s2 : String, s1 ≠ "" → s2 ≠ "" →
      ((jsTrim (jsToLower s1)).length < 50 ∨ (jsTrim (jsToLower s2)).length < 50) →
      0 < max (jsTrim (jsToLower s1)).length (jsTrim (jsToLower s2)).length →
      calculateSimilarity s1 s2 =
        1 - (levenshteinDistance (jsTrim (jsToLower s1)).data
              (jsTrim (jsToLower s2)).data : ℚ) /
            (max (jsTrim (jsToLower s1)).length (jsTrim (jsToLower s2)).length : ℚ)) ∧
    (∀ (now : ℤ) (content : String) (st : MsgState),
      5 ≤ content.length →
      (∃ prev ∈ st.history,
        similarityThreshold ≤ calculateSimilarity content prev) →
      (shouldScoreMessage now content st).1 = false) ∧
    (calculateSimilarity "Hello 2" "Hello 1" = 6/7 ∧
      (shouldScoreMessage 0 "Hello 1" ⟨none, none, []⟩).1 = true ∧
      (shouldScoreMessage 20000 "Hello 2"
        (shouldScoreMessage 0 "Hello 1" ⟨none, none, []⟩).2).1 = false) := by
  refine ⟨calcSim_short_formula, dup_similar_rejected, calcSim_hello, ?_, ?_⟩
  · rw [shouldScore_hello1]
  · rw [shouldScore_hello1]
    exact shouldScore_hello2

theorem C8_amended_duplicate_witness :
    ("Hello 2" ≠ "" ∧
      calculateSimilarity "Hello 2" "Hello 1" =
        1 - (levenshteinDistance (jsTrim (jsToLower "Hello 2")).data
              (jsTrim (jsToLower "Hello 1")).data : ℚ) /
            (max (jsTrim (jsToLower "Hello 2")).length
              (jsTrim (jsToLower "Hello 1")).length : ℚ)) ∧
    (5 ≤ ("Hello 2" : String).length ∧
      (shouldScoreMessage 0 "Hello 2"
        ⟨none, none, ["Hello 1"]⟩).1 = false) :=
  ⟨⟨by decide,
    C8_amended_duplicate.1 "Hello 2" "Hello 1" (by decide) (by decide)
      (by decide) (by decide)⟩,
   ⟨by decide,
    C8_amended_duplicate.2.1 0 "Hello 2" ⟨none, none, ["Hello 1"]⟩ (by decide)
      ⟨"Hello 1", List.mem_singleton_self _, by
        rw [calcSim_hello]; norm_num [similarityThreshold]⟩⟩⟩

/-- C8 counterexample: a 4-character message bypasses duplicate
detection: "abcd" has similarity 4/5 ≥ 0.7 to the stored "abcde" yet is
scored, so the claim is false without the ≥ 5 characters proviso. -/
theorem C8_counterexample :
    calculateSimilarity "abcd" "abcde" = 4/5 ∧
    similarityThreshold ≤ 4/5 ∧
    (isDuplicateMessage "abcd" ["abcde"]).1 = false ∧
    (shouldScoreMessage 0 "abcd" ⟨none, none, ["abcde"]⟩).1 = true := by
  refine ⟨?_, by norm_num [similarityThreshold], by decide, by decide⟩
  simp only [calculateSimilarity]
  rw [if_neg (by decide : ¬("abcd" = "" ∨ "abcde" = ""))]
  rw [show jsTrim (jsToLower "abcd") = "abcd" from by decide,
    show jsTrim (jsToLower "abcde") = "abcde" from by decide]
  rw [if_pos (by decide : ("abcd".length < 50 ∨ "abcde".length < 50))]
  rw [if_neg (by decide : ¬(max "abcd".length "abcde".length = 0))]
  rw [show levenshteinDistance "abcd".data "abcde".data = 1 from by decide,
    show max "abcd".length "abcde".length = 5 from by decide]
  norm_num
